import Mathlib

/-!
# A verification development for the statistics chart widget

Shallow embedding of `Telegram/SourceFiles/statistics/chart_widget.cpp`:
the chart animation controller, the footer range selector and the
gridline-group management, together with theorems about the behaviour of
these operations.  `float64` values are modelled as rationals, `crl::time`
timestamps as rationals, pixel coordinates as integers.
-/

namespace Statistic

/-- `Limits`: a `(min, max)` pair, used both for fractional X ranges and for
Y value ranges (from `statistics/limits.h`, a plain pair of `float64`). -/
structure Limits where
  min : ℚ
  max : ℚ
deriving DecidableEq, Repr

/-- Modelled from the spec: the "Interpolated Value" of the data model — a
(current, target) pair where `current` is derived by an easing function
applied between the value held when the animation started and the target
(`anim::value` from `ui/effects/animation_value.h`, which is not part of the
sources here).  Represented as current value, start value and delta, so the
target is `fro + delta`. -/
structure AnimValue where
  cur : ℚ
  fro : ℚ
  delta : ℚ
deriving DecidableEq, Repr

namespace AnimValue

/-- Default-constructed interpolated value: everything zero. -/
def init : AnimValue := ⟨0, 0, 0⟩

/-- Two-argument constructor `anim::value(from, to)`. -/
def mk2 (fromValue toValue : ℚ) : AnimValue :=
  ⟨fromValue, fromValue, toValue - fromValue⟩

/-- The animation target `to()`. -/
def toValue (v : AnimValue) : ℚ := v.fro + v.delta

/-- `start(to)`: re-anchor the animation at the current value, aiming at a
new target. -/
def start (v : AnimValue) (toValue : ℚ) : AnimValue :=
  ⟨v.cur, v.cur, toValue - v.cur⟩

/-- `finish()`: snap the current value to the target. -/
def finish (v : AnimValue) : AnimValue :=
  ⟨v.fro + v.delta, v.fro + v.delta, 0⟩

/-- `update(dt, easing)`: current value becomes start plus delta scaled by
the easing function of the progress fraction. -/
def update (v : AnimValue) (dt : ℚ) (easing : ℚ → ℚ) : AnimValue :=
  ⟨v.fro + v.delta * easing dt, v.fro, v.delta⟩

end AnimValue

/-- Modelled from the spec: the linear easing curve (`anim::linear`). -/
def linearTransition (dt : ℚ) : ℚ := dt

/-- Modelled from the spec: the accelerating "ease-in-cubic" curve
(`anim::easeInCubic`), starting slow and finishing fast. -/
def easeInCubic (dt : ℚ) : ℚ := dt * dt * dt

/-- Modelled from the spec: one data line of the RangeQueryable Series
Store (`Data::StatisticalChart::Line`, external to these sources): an array
of integer values with min/max range queries. -/
structure StatLine where
  values : List ℤ
deriving DecidableEq, Repr

/-- The inclusive index slice `[a, b]` of a value list. -/
def sliceIncl (xs : List ℤ) (a b : ℕ) : List ℤ :=
  (xs.drop a).take (b + 1 - a)

namespace StatLine

/-- Modelled from the spec: `segmentTree.rMaxQ(from, to)` — maximum of the
line's values over the inclusive index range, as a fold seeded with the
smallest 32-bit int (the segment tree's neutral element). -/
def rMaxQ (l : StatLine) (a b : ℕ) : ℤ :=
  (sliceIncl l.values a b).foldl max (-2147483648)

/-- Modelled from the spec: `segmentTree.rMinQ(from, to)` — minimum of the
line's values over the inclusive index range, as a fold seeded with the
largest 32-bit int. -/
def rMinQ (l : StatLine) (a b : ℕ) : ℤ :=
  (sliceIncl l.values a b).foldl min 2147483647

end StatLine

/-- Modelled from the spec: the Series Store (`Data::StatisticalChart`,
external): per-line value arrays plus the ordered `xPercentage` sequence of
per-sample fractional X positions. -/
structure StatisticalChart where
  lines : List StatLine
  xPercentage : List ℚ
deriving DecidableEq, Repr

namespace StatisticalChart

/-- Modelled from the spec: `findStartIndex(xFraction)` — the index of the
first sample whose fractional X position is at least the given fraction. -/
def findStartIndex (c : StatisticalChart) (v : ℚ) : ℕ :=
  c.xPercentage.findIdx (fun x => decide (v ≤ x))

/-- Modelled from the spec: `findEndIndex(startIndex, xFraction)` — the
index of the last sample whose fractional X position is at most the given
fraction, never before the start index. -/
def findEndIndex (c : StatisticalChart) (start : ℕ) (v : ℚ) : ℕ :=
  max start
    (c.xPercentage.length - 1 - c.xPercentage.reverse.findIdx (fun x => decide (x ≤ v)))

end StatisticalChart

/-- `FindMaxValue(chartData, startXIndex, endXIndex)`: fold of the per-line
range maxima, seeded with `0` exactly as the source's `auto maxValue = 0`. -/
def FindMaxValue (c : StatisticalChart) (startXIndex endXIndex : ℕ) : ℤ :=
  c.lines.foldl (fun maxValue l => max (l.rMaxQ startXIndex endXIndex) maxValue) 0

/-- `FindMinValue(chartData, startXIndex, endXIndex)`: fold of the per-line
range minima, seeded with `std::numeric_limits<int>::max()`. -/
def FindMinValue (c : StatisticalChart) (startXIndex endXIndex : ℕ) : ℤ :=
  c.lines.foldl (fun minValue l => min (l.rMinQ startXIndex endXIndex) minValue) 2147483647

/-- All values of all lines inside the inclusive index range: the data over
which the "true" minimum and maximum of the spec are taken. -/
def allValuesInRange (c : StatisticalChart) (startXIndex endXIndex : ℕ) : List ℤ :=
  (c.lines.map (fun l => sliceIncl l.values startXIndex endXIndex)).flatten

end Statistic

namespace Statistic

/-- Modelled from the spec: one horizontal gridline of a Gridline Group
(`ChartHorizontalLinesData::Line`, external to these sources): an absolute
value, a relative position in `[0,1]` computed from a value range, and a
caption string. -/
structure ChartHorizontalLine where
  absoluteValue : ℚ
  relativeValue : ℚ
  caption : String
deriving DecidableEq, Repr

/-- Modelled from the spec: a Gridline Group
(`ChartHorizontalLinesData`, external to these sources): an ordered
sequence of gridlines derived from a fixed value range, a live crossfade
`alpha` and a `fixedAlpha` frozen from a previous group. -/
structure ChartHorizontalLinesData where
  lines : List ChartHorizontalLine
  alpha : ℚ
  fixedAlpha : ℚ
deriving DecidableEq, Repr

namespace ChartHorizontalLinesData

/-- Modelled from the spec: the Gridline Group constructor
`ChartHorizontalLinesData(newMaxHeight, newMinHeight, useMinHeight)` —
derives an ordered sequence of gridlines spanning the group's own value
range (six gridlines at even fractions), each with an absolute value and a
relative position; a new group starts with alpha `0`. -/
def construct (newMaxHeight newMinHeight : ℚ) (useMinHeight : Bool) :
    ChartHorizontalLinesData :=
  let base := if useMinHeight then newMinHeight else 0
  { lines := (List.range 6).map (fun k =>
      { absoluteValue := base + (newMaxHeight - base) * k / 5
        relativeValue := 1 - (k : ℚ) / 5
        caption := "" })
    alpha := 0
    fixedAlpha := 1 }

/-- Modelled from the spec: `computeRelative(newMaxHeight, newMinHeight)` —
recompute every gridline's relative position against a (current) value
range. -/
def computeRelative (d : ChartHorizontalLinesData)
    (newMaxHeight newMinHeight : ℚ) : ChartHorizontalLinesData :=
  { d with lines := d.lines.map (fun l =>
      { l with relativeValue :=
          1 - (l.absoluteValue - newMinHeight) / (newMaxHeight - newMinHeight) }) }

end ChartHorizontalLinesData

/-- `kDtHeightSpeed1 = 0.03 / 2`. -/
def kDtHeightSpeed1 : ℚ := (3 / 100) / 2

/-- `kDtHeightSpeed2 = 0.03 / 2`. -/
def kDtHeightSpeed2 : ℚ := (3 / 100) / 2

/-- `kDtHeightSpeed3 = 0.045 / 2`. -/
def kDtHeightSpeed3 : ℚ := (45 / 1000) / 2

/-- `kDtHeightSpeedThreshold1 = 0.7`. -/
def kDtHeightSpeedThreshold1 : ℚ := 7 / 10

/-- `kDtHeightSpeedThreshold2 = 0.1`. -/
def kDtHeightSpeedThreshold2 : ℚ := 1 / 10

/-- `kDtHeightInstantThreshold = 0.97`. -/
def kDtHeightInstantThreshold : ℚ := 97 / 100

/-- `kHeightLimitsUpdateTimeout = crl::time(320)`. -/
def kHeightLimitsUpdateTimeout : ℚ := 320

/-- `kExpandingDelay = crl::time(100)`. -/
def kExpandingDelay : ℚ := 100

/-- `kXExpandingDuration = 200.`. -/
def kXExpandingDuration : ℚ := 200

/-- `kAlphaExpandingDuration = 200.`. -/
def kAlphaExpandingDuration : ℚ := 200

/-- The Y easing speed chosen in `setXPercentageLimits` as a function of
the (already inverted-if-needed) span ratio `k`:
`(k > kDtHeightSpeedThreshold1) ? kDtHeightSpeed1
 : (k < kDtHeightSpeedThreshold2) ? kDtHeightSpeed2 : kDtHeightSpeed3`. -/
def dtYSpeedFor (k : ℚ) : ℚ :=
  if k > kDtHeightSpeedThreshold1 then kDtHeightSpeed1
  else if k < kDtHeightSpeedThreshold2 then kDtHeightSpeed2
  else kDtHeightSpeed3

/-- The state of `ChartWidget::ChartAnimationController`: the animation
basic (running flag and start timestamp, modelled from the spec since
`Ui::Animations::Basic` is external), the five interpolated values, the
final Y target, the Y speed and progress, and the three timestamps. -/
structure ChartAnimationController where
  animating : Bool
  animStarted : ℚ
  xMin : AnimValue
  xMax : AnimValue
  yMin : AnimValue
  yMax : AnimValue
  yAlpha : AnimValue
  finalHeightLimits : Limits
  dtYSpeed : ℚ
  dtCurrent : Limits
  lastUserInteracted : ℚ
  yAnimationStartedAt : ℚ
  alphaAnimationStartedAt : ℚ
deriving DecidableEq, Repr

namespace ChartAnimationController

/-- A freshly constructed controller: all members default-initialised. -/
def initial : ChartAnimationController :=
  { animating := false
    animStarted := 0
    xMin := AnimValue.init
    xMax := AnimValue.init
    yMin := AnimValue.init
    yMax := AnimValue.init
    yAlpha := AnimValue.init
    finalHeightLimits := ⟨0, 0⟩
    dtYSpeed := 0
    dtCurrent := ⟨0, 0⟩
    lastUserInteracted := 0
    yAnimationStartedAt := 0
    alphaAnimationStartedAt := 0 }

/-- `ChartAnimationController::start()`: `if (!_animation.animating())
_animation.start();`.  Modelled from the spec: activating the external
animation basic records the activation time. -/
def start (st : ChartAnimationController) (now : ℚ) : ChartAnimationController :=
  if st.animating then st else { st with animating := true, animStarted := now }

/-- `ChartAnimationController::setXPercentageLimits(chartData,
xPercentageLimits, now)`, translated clause by clause from the source. -/
def setXPercentageLimits (st : ChartAnimationController)
    (chartData : StatisticalChart) (xPercentageLimits : Limits) (now : ℚ) :
    ChartAnimationController :=
  if st.xMin.toValue = xPercentageLimits.min
      ∧ st.xMax.toValue = xPercentageLimits.max then
    st
  else
    let st := st.start now
    let xMin := st.xMin.start xPercentageLimits.min
    let xMax := st.xMax.start xPercentageLimits.max
    let startXIndex := chartData.findStartIndex xMin.toValue
    let endXIndex := chartData.findEndIndex startXIndex xMax.toValue
    let finalHeightLimits : Limits :=
      ⟨(FindMinValue chartData startXIndex endXIndex : ℚ),
        (FindMaxValue chartData startXIndex endXIndex : ℚ)⟩
    let yMin := AnimValue.mk2 st.yMin.cur finalHeightLimits.min
    let yMax := AnimValue.mk2 st.yMax.cur finalHeightLimits.max
    let k0 := (yMax.cur - yMin.cur)
      / (finalHeightLimits.max - finalHeightLimits.min)
    let k := if k0 > 1 then 1 / k0 else k0
    { st with
      xMin := xMin
      xMax := xMax
      lastUserInteracted := now
      finalHeightLimits := finalHeightLimits
      yMin := yMin
      yMax := yMax
      dtYSpeed := dtYSpeedFor k
      dtCurrent := if k < kDtHeightInstantThreshold then ⟨0, 0⟩ else st.dtCurrent }

/-- `ChartAnimationController::finish()`: stop the animation and snap all
five interpolated values to their targets. -/
def finish (st : ChartAnimationController) : ChartAnimationController :=
  { st with
    animating := false
    xMin := st.xMin.finish
    xMax := st.xMax.finish
    yMin := st.yMin.finish
    yMax := st.yMax.finish
    yAlpha := st.yAlpha.finish }

/-- `ChartAnimationController::resetAlpha()`: restart the crossfade from 0
toward 1. -/
def resetAlpha (st : ChartAnimationController) : ChartAnimationController :=
  { st with
    alphaAnimationStartedAt := 0
    yAlpha := AnimValue.mk2 0 1 }

/-- `currentXLimits()`. -/
def currentXLimits (st : ChartAnimationController) : Limits :=
  ⟨st.xMin.cur, st.xMax.cur⟩

/-- `currentHeightLimits()`. -/
def currentHeightLimits (st : ChartAnimationController) : Limits :=
  ⟨st.yMin.cur, st.yMax.cur⟩

end ChartAnimationController

end Statistic

namespace Statistic

/-- The retirement loop at the end of `tick`: `while (size > 1) { if
(front has zero alpha) erase front; else break; }`. -/
def retireFrontZeroAlpha :
    List ChartHorizontalLinesData → List ChartHorizontalLinesData
  | x :: y :: rest =>
    if x.alpha = 0 then retireFrontZeroAlpha (y :: rest) else x :: y :: rest
  | xs => xs

/-- `horizontalLines.back().alpha = value`: overwrite the alpha of the last
group of the list (identity on the empty list; `tick` guards the empty case
separately). -/
def setBackAlpha (value : ℚ) :
    List ChartHorizontalLinesData → List ChartHorizontalLinesData
  | [] => []
  | [x] => [{ x with alpha := value }]
  | x :: y :: rest => x :: setBackAlpha value (y :: rest)

/-- The outcome of one `tick`: the controller state, the rewritten gridline
group list, and whether the `_heightAnimationStarts` event fired. -/
structure TickResult where
  controller : ChartAnimationController
  horizontalLines : List ChartHorizontalLinesData
  heightAnimationStartsFired : Bool
deriving DecidableEq, Repr

namespace ChartAnimationController

/-- The idle check of `tick`: when X, Y and alpha are all finished, the
source reads `horizontalLines.back().lines.front()/back()` without any
emptiness check (undefined behaviour on empty containers, modelled as
`none`) and stops the animation when the newest group's extreme gridlines
match the Y targets. -/
def tickIdleCheck (st : ChartAnimationController)
    (horizontalLines : List ChartHorizontalLinesData) :
    Option ChartAnimationController :=
  match horizontalLines.getLast? with
  | none => none
  | some back =>
    match back.lines.head?, back.lines.getLast? with
    | some frontLine, some backLine =>
      some (if frontLine.absoluteValue = st.yMin.toValue
          ∧ backLine.absoluteValue = st.yMax.toValue then
        { st with animating := false }
      else st)
    | _, _ => none

/-- The crossfade stage of `tick` for a given alpha `value`: every group's
alpha becomes `fixedAlpha * (1 - value)`, then `horizontalLines.back()` is
assigned `value` (undefined behaviour on an empty list, modelled as
`none`), and when the value is exactly 1 the front groups with zero alpha
are retired. -/
def tickAlphaStage (value : ℚ)
    (horizontalLines : List ChartHorizontalLinesData) :
    Option (List ChartHorizontalLinesData) :=
  let faded := horizontalLines.map
    (fun h => { h with alpha := h.fixedAlpha * (1 - value) })
  match faded.getLast? with
  | none => none
  | some _ =>
    let written := setBackAlpha value faded
    some (if value = 1 then retireFrontZeroAlpha written else written)

/-- `ChartAnimationController::tick(now, horizontalLines)`, translated
clause by clause from the source.  The accesses the C++ performs on
potentially-empty containers are modelled through `tickIdleCheck` and
`tickAlphaStage`, which return `none` on undefined behaviour. -/
def tick (st0 : ChartAnimationController) (now : ℚ)
    (horizontalLines : List ChartHorizontalLinesData) : Option TickResult :=
  if !st0.animating then
    some ⟨st0, horizontalLines, false⟩
  else
  let fired : Bool :=
    decide (st0.yAnimationStartedAt = 0
      ∧ now - st0.lastUserInteracted ≥ kExpandingDelay)
  let st1 :=
    if st0.yAnimationStartedAt = 0
        ∧ now - st0.lastUserInteracted ≥ kExpandingDelay then
      { st0 with yAnimationStartedAt := st0.lastUserInteracted + kExpandingDelay }
    else st0
  let st2 :=
    if st1.alphaAnimationStartedAt = 0 then
      { st1 with alphaAnimationStartedAt := now }
    else st1
  let st3 :=
    { st2 with dtCurrent :=
        ⟨min (st2.dtCurrent.min + st2.dtYSpeed) 1,
          min (st2.dtCurrent.max + st2.dtYSpeed) 1⟩ }
  let dtX := min ((now - st3.animStarted) / kXExpandingDuration) 1
  let dtAlpha := min ((now - st3.alphaAnimationStartedAt) / kAlphaExpandingDuration) 1
  let xFinished := st3.xMin.cur = st3.xMin.toValue ∧ st3.xMax.cur = st3.xMax.toValue
  let yFinished := st3.yMin.cur = st3.yMin.toValue ∧ st3.yMax.cur = st3.yMax.toValue
  let alphaFinished := st3.yAlpha.cur = st3.yAlpha.toValue
  let st4? :=
    if xFinished ∧ yFinished ∧ alphaFinished then
      tickIdleCheck st3 horizontalLines
    else some st3
  st4?.bind fun st4 =>
  let st5 :=
    if xFinished then
      { st4 with xMin := st4.xMin.finish, xMax := st4.xMax.finish }
    else
      { st4 with
        xMin := st4.xMin.update dtX linearTransition
        xMax := st4.xMax.update dtX linearTransition }
  let stY :=
    if st5.yAnimationStartedAt ≠ 0 then
      { st5 with
        yMin := st5.yMin.update st5.dtCurrent.min easeInCubic
        yMax := st5.yMax.update st5.dtCurrent.max easeInCubic
        yAlpha := st5.yAlpha.update dtAlpha easeInCubic }
    else st5
  let hl1 :=
    if st5.yAnimationStartedAt ≠ 0 then
      horizontalLines.map (fun h => h.computeRelative stY.yMax.cur stY.yMin.cur)
    else horizontalLines
  let hl2? :=
    if 0 ≤ dtAlpha ∧ dtAlpha ≤ 1 then
      tickAlphaStage stY.yAlpha.cur hl1
    else some hl1
  hl2?.bind fun hl2 =>
  let stZ :=
    if yFinished ∧ alphaFinished then
      { stY with alphaAnimationStartedAt := 0, yAnimationStartedAt := 0 }
    else stY
  some ⟨stZ, hl2, fired⟩

end ChartAnimationController

/-- The side of the footer being dragged. -/
inductive FooterSide
  | left
  | right
deriving DecidableEq, Repr

/-- `std::clamp(v, lo, hi)` (requires `lo ≤ hi` in C++). -/
def stdClamp (v lo hi : ℤ) : ℤ := max lo (min v hi)

/-- The state of `ChartWidget::Footer` relevant to dragging: the X
positions of the two handle widgets, the handle width
(`st::colorSliderWidth`), the track width (`width()`), and the `_start`
drag-bookkeeping struct. -/
structure FooterState where
  leftX : ℤ
  rightX : ℤ
  handleW : ℤ
  trackW : ℤ
  startX : ℤ
  startLeftLimit : ℤ
  startRightLimit : ℤ
  startDiffX : ℤ
deriving DecidableEq, Repr

namespace FooterState

/-- The `MouseButtonPress` case of `handleDrag`: record the pointer X and
sample the side's drag limits.  For the left handle the limits are
`[0, _right->x() - _left->width()]`; for the right handle they are
`[rect::right(_left), width() - _right->width()]`. -/
def mousePress (f : FooterState) (side : FooterSide) (posX : ℤ) : FooterState :=
  { f with
    startX := posX
    startLeftLimit :=
      match side with
      | .left => 0
      | .right => f.leftX + f.handleW
    startRightLimit :=
      match side with
      | .left => f.rightX - f.handleW
      | .right => f.trackW - f.handleW }

/-- The `MouseMove` case of `handleDrag`: with the modifier key pressed
both handles are translated by `pos.x() - _start.x`; otherwise the dragged
side moves to its clamped new position. -/
def mouseMove (f : FooterState) (side : FooterSide) (ctrlPressed : Bool)
    (posX : ℤ) : FooterState :=
  if ctrlPressed then
    let diff := posX - f.startX
    { f with leftX := f.leftX + diff, rightX := f.rightX + diff }
  else
    match side with
    | .left =>
      { f with
        startDiffX := posX - f.startX
        leftX := stdClamp (f.leftX + (posX - f.startX))
          f.startLeftLimit f.startRightLimit }
    | .right =>
      { f with
        startDiffX := posX - f.startX
        rightX := stdClamp (f.rightX + (posX - f.startX))
          f.startLeftLimit f.startRightLimit }

/-- The fractional limits fired on every move and on release:
`{ _left->x() / width(), rect::right(_right) / width() }`. -/
def xPercentageLimits (f : FooterState) : Limits :=
  ⟨(f.leftX : ℚ) / (f.trackW : ℚ),
    ((f.rightX + f.handleW : ℤ) : ℚ) / (f.trackW : ℚ)⟩

end FooterState

end Statistic

namespace Statistic

/-- The state of `ChartWidget` relevant to the claims: the chart data, the
animation controller, the owned ordered list of gridline groups, and the
throttle timestamp `_lastHeightLimitsChanged`. -/
structure ChartWidgetState where
  chartData : StatisticalChart
  controller : ChartAnimationController
  horizontalLines : List ChartHorizontalLinesData
  lastHeightLimitsChanged : ℚ
deriving DecidableEq, Repr

/-- `ChartWidget::addHorizontalLine(newHeight, animated)`: build a group
from the new height limits; when not animated clear the list first; freeze
every remaining group's alpha into `fixedAlpha`; append the new group; when
not animated set the back group's alpha to 1. -/
def addHorizontalLine (horizontalLines : List ChartHorizontalLinesData)
    (newHeight : Limits) (animated : Bool) : List ChartHorizontalLinesData :=
  let newLinesData :=
    ChartHorizontalLinesData.construct newHeight.max newHeight.min true
  let cleared := if animated then horizontalLines else []
  let frozen := cleared.map (fun h => { h with fixedAlpha := h.alpha })
  let appended := frozen ++ [newLinesData]
  if animated then appended else setBackAlpha 1 appended

namespace ChartWidgetState

/-- A freshly constructed `ChartWidget` holding no data. -/
def initial : ChartWidgetState :=
  { chartData := ⟨[], []⟩
    controller := ChartAnimationController.initial
    horizontalLines := []
    lastHeightLimitsChanged := 0 }

/-- The `_footer->xPercentageLimitsChange()` handler of the `ChartWidget`
constructor: forward the new fractional limits to the controller, then —
unless throttled by `kHeightLimitsUpdateTimeout` — record the event time,
reset the crossfade and add an animated gridline group at the controller's
final height limits. -/
def handleXPercentageLimitsChange (w : ChartWidgetState)
    (xPercentageLimits : Limits) (now : ℚ) : ChartWidgetState :=
  let controller :=
    w.controller.setXPercentageLimits w.chartData xPercentageLimits now
  if now - w.lastHeightLimitsChanged < kHeightLimitsUpdateTimeout then
    { w with controller := controller }
  else
    let controller := controller.resetAlpha
    { w with
      controller := controller
      lastHeightLimitsChanged := now
      horizontalLines := addHorizontalLine w.horizontalLines
        controller.finalHeightLimits true }

/-- The merged `heightAnimationStarts`/`userInteractionFinished` handler:
reset the crossfade, add an animated gridline group at the final height
limits, and (re)start the animation. -/
def handleHeightAnimationStart (w : ChartWidgetState) (now : ℚ) :
    ChartWidgetState :=
  let controller := w.controller.resetAlpha
  { w with
    controller := controller.start now
    horizontalLines := addHorizontalLine w.horizontalLines
      controller.finalHeightLimits true }

/-- `ChartWidget::setChartData(chartData)`: replace the data, set the X
limits to the full data range at time 0, `finish()` the animation, and add
the gridline group non-animated. -/
def setChartData (w : ChartWidgetState) (chartData : StatisticalChart) :
    ChartWidgetState :=
  let controller := w.controller.setXPercentageLimits chartData
    ⟨chartData.xPercentage.headD 0, chartData.xPercentage.getLastD 0⟩ 0
  let controller := controller.finish
  { w with
    chartData := chartData
    controller := controller
    horizontalLines := addHorizontalLine w.horizontalLines
      controller.finalHeightLimits false }

end ChartWidgetState

end Statistic

namespace Statistic

/-- A sample chart: one line of five points with values `[10,20,5,40,15]`
over the full fractional range `[0,1]`. -/
def sampleChart : StatisticalChart :=
  ⟨[⟨[10, 20, 5, 40, 15]⟩], [0, 1/4, 1/2, 3/4, 1]⟩

/-- A chart whose single line holds only negative values. -/
def negChart : StatisticalChart := ⟨[⟨[-5, -3]⟩], [0, 1]⟩

/-- A controller with the animation loop running and everything else at its
defaults. -/
def runningController : ChartAnimationController :=
  { ChartAnimationController.initial with animating := true }

/-- A controller mid-animation: the Y and alpha sub-animations have
started, and the crossfade is half-way toward its target 1. -/
def tickController : ChartAnimationController :=
  { ChartAnimationController.initial with
    animating := true
    yAnimationStartedAt := 50
    alphaAnimationStartedAt := 100
    lastUserInteracted := 0
    yAlpha := ⟨1/2, 0, 1⟩ }

/-- An older gridline group, mid-fade-out. -/
def sampleGroupA : ChartHorizontalLinesData :=
  ⟨[⟨5, 0, ""⟩, ⟨40, 1, ""⟩], 1/2, 3/10⟩

/-- The newest gridline group, mid-fade-in. -/
def sampleGroupB : ChartHorizontalLinesData :=
  ⟨[⟨0, 0, ""⟩, ⟨50, 1, ""⟩], 1/4, 1⟩

/-- A footer mid-drag: track 100 pixels wide, 10-pixel handles, left handle
at 0, right handle at 90, drag started at pointer X 5. -/
def sampleFooter : FooterState :=
  { leftX := 0
    rightX := 90
    handleW := 10
    trackW := 100
    startX := 5
    startLeftLimit := 0
    startRightLimit := 80
    startDiffX := 0 }

end Statistic

namespace Statistic

theorem foldl_min_le_init : ∀ (xs : List ℤ) (init : ℤ), xs.foldl min init ≤ init
  | [], _ => le_refl _
  | a :: l, init =>
    le_trans (foldl_min_le_init l (min init a)) (min_le_left _ _)

theorem foldl_min_le_mem :
    ∀ (xs : List ℤ) (init x : ℤ), x ∈ xs → xs.foldl min init ≤ x
  | a :: l, init, x, hx => by
    rcases List.mem_cons.mp hx with h | h
    · subst h
      exact le_trans (foldl_min_le_init l _) (min_le_right _ _)
    · exact foldl_min_le_mem l (min init a) x h

theorem le_foldl_min :
    ∀ (xs : List ℤ) (init b : ℤ), (∀ x ∈ xs, b ≤ x) → b ≤ init →
      b ≤ xs.foldl min init
  | [], _, _, _, hi => hi
  | a :: l, init, b, hb, hi =>
    le_foldl_min l (min init a) b (fun x hx => hb x (List.mem_cons_of_mem a hx))
      (le_min hi (hb a (List.mem_cons_self a l)))

theorem init_le_foldl_max : ∀ (xs : List ℤ) (init : ℤ), init ≤ xs.foldl max init
  | [], _ => le_refl _
  | a :: l, init =>
    le_trans (le_max_left _ _) (init_le_foldl_max l (max init a))

theorem mem_le_foldl_max :
    ∀ (xs : List ℤ) (init x : ℤ), x ∈ xs → x ≤ xs.foldl max init
  | a :: l, init, x, hx => by
    rcases List.mem_cons.mp hx with h | h
    · subst h
      exact le_trans (le_max_right _ _) (init_le_foldl_max l _)
    · exact mem_le_foldl_max l (max init a) x h

theorem foldl_max_le :
    ∀ (xs : List ℤ) (init b : ℤ), (∀ x ∈ xs, x ≤ b) → init ≤ b →
      xs.foldl max init ≤ b
  | [], _, _, _, hi => hi
  | a :: l, init, b, hb, hi =>
    foldl_max_le l (max init a) b (fun x hx => hb x (List.mem_cons_of_mem a hx))
      (max_le hi (hb a (List.mem_cons_self a l)))

theorem foldl_flip_min {α : Type} (g : α → ℤ) :
    ∀ (xs : List α) (init : ℤ),
      xs.foldl (fun m a => min (g a) m) init = (xs.map g).foldl min init
  | [], _ => rfl
  | a :: l, init => by
    simp only [List.foldl_cons, List.map_cons]
    rw [min_comm (g a) init]
    exact foldl_flip_min g l (min init (g a))

theorem foldl_flip_max {α : Type} (g : α → ℤ) :
    ∀ (xs : List α) (init : ℤ),
      xs.foldl (fun m a => max (g a) m) init = (xs.map g).foldl max init
  | [], _ => rfl
  | a :: l, init => by
    simp only [List.foldl_cons, List.map_cons]
    rw [max_comm (g a) init]
    exact foldl_flip_max g l (max init (g a))

theorem FindMinValue_eq_foldl (c : StatisticalChart) (s e : ℕ) :
    FindMinValue c s e
      = (c.lines.map (fun l => l.rMinQ s e)).foldl min 2147483647 :=
  foldl_flip_min _ _ _

theorem FindMaxValue_eq_foldl (c : StatisticalChart) (s e : ℕ) :
    FindMaxValue c s e
      = (c.lines.map (fun l => l.rMaxQ s e)).foldl max 0 :=
  foldl_flip_max _ _ _

/-- `FindMinValue` returns the true minimum over all line values in the
index range whenever that minimum fits a 32-bit int. -/
theorem FindMinValue_spec (c : StatisticalChart) (s e : ℕ) (mn : ℤ)
    (hmem : mn ∈ allValuesInRange c s e)
    (hub : ∀ v ∈ allValuesInRange c s e, mn ≤ v)
    (hb : mn ≤ 2147483647) :
    FindMinValue c s e = mn := by
  rw [FindMinValue_eq_foldl]
  apply le_antisymm
  · obtain ⟨slice, hslice, hmn⟩ := List.mem_flatten.mp hmem
    obtain ⟨l, hl, rfl⟩ := List.mem_map.mp hslice
    have h1 : l.rMinQ s e ≤ mn := foldl_min_le_mem _ _ _ hmn
    have h2 : (c.lines.map (fun l => l.rMinQ s e)).foldl min 2147483647
        ≤ l.rMinQ s e :=
      foldl_min_le_mem _ _ _ (List.mem_map_of_mem _ hl)
    exact le_trans h2 h1
  · refine le_foldl_min _ _ _ ?_ hb
    intro r hr
    obtain ⟨l, hl, rfl⟩ := List.mem_map.mp hr
    refine le_foldl_min _ _ _ ?_ hb
    intro v hv
    exact hub v (List.mem_flatten.mpr ⟨_, List.mem_map_of_mem _ hl, hv⟩)

/-- `FindMaxValue` returns the true maximum over all line values in the
index range clamped below at `0` (the source seeds its fold with
`auto maxValue = 0`), whenever that maximum is at least the smallest
32-bit int. -/
theorem FindMaxValue_spec (c : StatisticalChart) (s e : ℕ) (mx : ℤ)
    (hmem : mx ∈ allValuesInRange c s e)
    (hub : ∀ v ∈ allValuesInRange c s e, v ≤ mx)
    (hb : -2147483648 ≤ mx) :
    FindMaxValue c s e = max 0 mx := by
  rw [FindMaxValue_eq_foldl]
  apply le_antisymm
  · refine foldl_max_le _ _ _ ?_ (le_max_left 0 mx)
    intro r hr
    obtain ⟨l, hl, rfl⟩ := List.mem_map.mp hr
    refine foldl_max_le _ _ _ ?_ (le_trans hb (le_max_right 0 mx))
    intro v hv
    exact le_trans
      (hub v (List.mem_flatten.mpr ⟨_, List.mem_map_of_mem _ hl, hv⟩))
      (le_max_right 0 mx)
  · apply max_le
    · exact init_le_foldl_max _ _
    · obtain ⟨slice, hslice, hmx⟩ := List.mem_flatten.mp hmem
      obtain ⟨l, hl, rfl⟩ := List.mem_map.mp hslice
      have h1 : mx ≤ l.rMaxQ s e := mem_le_foldl_max _ _ _ hmx
      have h2 : l.rMaxQ s e
          ≤ (c.lines.map (fun l => l.rMaxQ s e)).foldl max 0 :=
        mem_le_foldl_max _ _ _ (List.mem_map_of_mem _ hl)
      exact le_trans h1 h2

theorem AnimValue.toValue_start (v : AnimValue) (t : ℚ) :
    (v.start t).toValue = t := by
  simp [AnimValue.start, AnimValue.toValue]

theorem AnimValue.finish_cur_of_start (v : AnimValue) (t : ℚ) :
    ((v.start t).finish).cur = t := by
  simp [AnimValue.start, AnimValue.finish]

theorem AnimValue.finish_cur_of_mk2 (a b : ℚ) :
    ((AnimValue.mk2 a b).finish).cur = b := by
  simp [AnimValue.mk2, AnimValue.finish]

theorem ChartAnimationController.start_xMin (st : ChartAnimationController)
    (now : ℚ) : (st.start now).xMin = st.xMin := by
  rw [ChartAnimationController.start]; split <;> rfl

theorem ChartAnimationController.start_xMax (st : ChartAnimationController)
    (now : ℚ) : (st.start now).xMax = st.xMax := by
  rw [ChartAnimationController.start]; split <;> rfl

theorem ChartAnimationController.start_yMin (st : ChartAnimationController)
    (now : ℚ) : (st.start now).yMin = st.yMin := by
  rw [ChartAnimationController.start]; split <;> rfl

theorem ChartAnimationController.start_yMax (st : ChartAnimationController)
    (now : ℚ) : (st.start now).yMax = st.yMax := by
  rw [ChartAnimationController.start]; split <;> rfl

theorem ChartAnimationController.start_yAlpha (st : ChartAnimationController)
    (now : ℚ) : (st.start now).yAlpha = st.yAlpha := by
  rw [ChartAnimationController.start]; split <;> rfl

theorem ChartAnimationController.start_dtCurrent (st : ChartAnimationController)
    (now : ℚ) : (st.start now).dtCurrent = st.dtCurrent := by
  rw [ChartAnimationController.start]; split <;> rfl

theorem ChartAnimationController.start_alphaStartedAt
    (st : ChartAnimationController) (now : ℚ) :
    (st.start now).alphaAnimationStartedAt = st.alphaAnimationStartedAt := by
  rw [ChartAnimationController.start]; split <;> rfl

theorem AnimValue.toValue_mk2 (a b : ℚ) : (AnimValue.mk2 a b).toValue = b := by
  simp [AnimValue.mk2, AnimValue.toValue]

/-- Both branches of `setXPercentageLimits` leave the X targets equal to the
requested pair. -/
theorem ChartAnimationController.setXPercentageLimits_targets
    (st : ChartAnimationController) (d : StatisticalChart) (p : Limits)
    (now : ℚ) :
    (st.setXPercentageLimits d p now).xMin.toValue = p.min
      ∧ (st.setXPercentageLimits d p now).xMax.toValue = p.max := by
  rw [ChartAnimationController.setXPercentageLimits]
  split
  · next h => exact h
  · exact ⟨AnimValue.toValue_start _ _, AnimValue.toValue_start _ _⟩

/-- When the requested pair already equals the X targets,
`setXPercentageLimits` is the identity. -/
theorem ChartAnimationController.setXPercentageLimits_of_targets_eq
    (st : ChartAnimationController) (d : StatisticalChart) (p : Limits)
    (now : ℚ) (h : st.xMin.toValue = p.min ∧ st.xMax.toValue = p.max) :
    st.setXPercentageLimits d p now = st := by
  rw [ChartAnimationController.setXPercentageLimits, if_pos h]

/-- `setXPercentageLimits` never touches the crossfade value or its start
timestamp. -/
theorem ChartAnimationController.setXPercentageLimits_yAlpha
    (st : ChartAnimationController) (d : StatisticalChart) (p : Limits)
    (now : ℚ) :
    (st.setXPercentageLimits d p now).yAlpha = st.yAlpha
      ∧ (st.setXPercentageLimits d p now).alphaAnimationStartedAt
          = st.alphaAnimationStartedAt := by
  rw [ChartAnimationController.setXPercentageLimits]
  split
  · exact ⟨rfl, rfl⟩
  · exact ⟨ChartAnimationController.start_yAlpha _ _,
      ChartAnimationController.start_alphaStartedAt _ _⟩

/-- `resetAlpha` leaves the X interpolated values untouched. -/
theorem ChartAnimationController.resetAlpha_x
    (st : ChartAnimationController) :
    st.resetAlpha.xMin = st.xMin ∧ st.resetAlpha.xMax = st.xMax :=
  ⟨rfl, rfl⟩

theorem addHorizontalLine_true_length
    (hl : List ChartHorizontalLinesData) (nh : Limits) :
    (addHorizontalLine hl nh true).length = hl.length + 1 := by
  simp [addHorizontalLine]

end Statistic

namespace Statistic

/-- C3 (counterexample): the claim asserts that during a modifier-key drag
both handles "remain clamped within the track bounds [0, track width]".
The modifier branch of `handleDrag` moves both handles without any
clamping: from `sampleFooter` (left handle at 0 on a 100-pixel track, drag
started at pointer X 5) a move to pointer X −20 puts the left handle at
−25, outside the track, while the window width is preserved. -/
theorem c3_counterexample :
    (sampleFooter.mouseMove FooterSide.left true (-20)).leftX < 0
      ∧ (sampleFooter.mouseMove FooterSide.left true (-20)).rightX
          - (sampleFooter.mouseMove FooterSide.left true (-20)).leftX
          = sampleFooter.rightX - sampleFooter.leftX := by
  decide

/-- C3 (amended): on every mouse-move during a drag with the modifier key
held, both footer handles are translated by the same delta
`pos.x() - _start.x`, so the selected window width is preserved; the
handles are not clamped to the track bounds in this mode. -/
theorem c3_ctrl_drag_translates_both (f : FooterState) (side : FooterSide)
    (posX : ℤ) :
    (f.mouseMove side true posX).leftX = f.leftX + (posX - f.startX)
      ∧ (f.mouseMove side true posX).rightX = f.rightX + (posX - f.startX)
      ∧ (f.mouseMove side true posX).rightX - (f.mouseMove side true posX).leftX
          = f.rightX - f.leftX := by
  refine ⟨rfl, rfl, ?_⟩
  simp only [FooterState.mouseMove, if_true]
  ring

/-- C4 (counterexample): the claim asserts that the speed chosen for
`k > 0.7` and the speed chosen for `k < 0.1` are distinct.  In the source
`kDtHeightSpeed1 = kDtHeightSpeed2 = 0.03 / 2`, so the speeds chosen at
`k = 4/5` (first branch) and `k = 1/20` (second branch) coincide. -/
theorem c4_counterexample :
    (4/5 : ℚ) > kDtHeightSpeedThreshold1
      ∧ (1/20 : ℚ) < kDtHeightSpeedThreshold2
      ∧ dtYSpeedFor (4/5) = dtYSpeedFor (1/20) := by
  norm_num [dtYSpeedFor, kDtHeightSpeedThreshold1, kDtHeightSpeedThreshold2,
    kDtHeightSpeed1, kDtHeightSpeed2, kDtHeightSpeed3]

/-- C4 (amended): with `k ≤ 1`, the Y easing speed is `kDtHeightSpeed1`
when `k > 0.7`, `kDtHeightSpeed2` when `k < 0.1`, and `kDtHeightSpeed3`
otherwise; the two slow speeds are *equal* (both `0.015`), and both are
smaller than the middle-branch speed (`0.0225`). -/
theorem c4_speed_selection (k : ℚ) :
    (k > kDtHeightSpeedThreshold1 → dtYSpeedFor k = kDtHeightSpeed1)
      ∧ (k < kDtHeightSpeedThreshold2 → dtYSpeedFor k = kDtHeightSpeed2)
      ∧ (¬(k > kDtHeightSpeedThreshold1) → ¬(k < kDtHeightSpeedThreshold2) →
          dtYSpeedFor k = kDtHeightSpeed3)
      ∧ kDtHeightSpeed1 = kDtHeightSpeed2
      ∧ kDtHeightSpeed1 < kDtHeightSpeed3
      ∧ kDtHeightSpeed2 < kDtHeightSpeed3 := by
  refine ⟨?_, ?_, ?_, by norm_num [kDtHeightSpeed1, kDtHeightSpeed2],
    by norm_num [kDtHeightSpeed1, kDtHeightSpeed3],
    by norm_num [kDtHeightSpeed2, kDtHeightSpeed3]⟩
  · intro h
    rw [dtYSpeedFor, if_pos h]
  · intro h
    have h' : ¬(k > kDtHeightSpeedThreshold1) := by
      rw [kDtHeightSpeedThreshold1]
      rw [kDtHeightSpeedThreshold2] at h
      push_neg
      linarith
    rw [dtYSpeedFor, if_neg h', if_pos h]
  · intro h1 h2
    rw [dtYSpeedFor, if_neg h1, if_neg h2]

/-- C4 (witness): at `k = 4/5` the first branch is taken and yields the
slow speed, which is smaller than the middle speed. -/
theorem c4_speed_selection_witness :
    dtYSpeedFor (4/5) = kDtHeightSpeed1 ∧ kDtHeightSpeed1 < kDtHeightSpeed3 :=
  ⟨(c4_speed_selection (4/5)).1 (by norm_num [kDtHeightSpeedThreshold1]),
    (c4_speed_selection (4/5)).2.2.2.2.1⟩

/-- C6: calling `setXPercentageLimits` a second time with the identical
fraction pair is a no-op — the guard compares the pair against the current
X targets and returns before restarting the animation, touching the
last-interaction timestamp, or recomputing any target.  The whole
controller state is unchanged by the second call. -/
theorem c6_setXPercentageLimits_idempotent (st : ChartAnimationController)
    (d : StatisticalChart) (p : Limits) (now now' : ℚ) :
    (st.setXPercentageLimits d p now).setXPercentageLimits d p now'
      = st.setXPercentageLimits d p now :=
  ChartAnimationController.setXPercentageLimits_of_targets_eq _ _ _ _
    (ChartAnimationController.setXPercentageLimits_targets st d p now)

/-- C8: during a non-modifier drag of the left footer handle (press, then
move), the right handle stays put, the left handle never ends past
`right handle position − left handle width`, and when the pointer would
push it past that limit it stops exactly there.  The hypothesis is the
C++ precondition of `std::clamp` (the handles did not overlap at press
time). -/
theorem c8_left_handle_clamp (f : FooterState) (posX0 posX : ℤ)
    (hW : 0 ≤ f.rightX - f.handleW) :
    ((f.mousePress FooterSide.left posX0).mouseMove FooterSide.left false posX).rightX
        = f.rightX
      ∧ ((f.mousePress FooterSide.left posX0).mouseMove FooterSide.left false posX).leftX
          ≤ f.rightX - f.handleW
      ∧ (f.rightX - f.handleW < f.leftX + (posX - posX0) →
          ((f.mousePress FooterSide.left posX0).mouseMove FooterSide.left false posX).leftX
            = f.rightX - f.handleW) := by
  refine ⟨rfl, ?_, ?_⟩ <;>
    simp only [FooterState.mousePress, FooterState.mouseMove, stdClamp,
      Bool.false_eq_true, if_false]
  · omega
  · intro h
    omega

/-- C8 (witness): on `sampleFooter` (left at 0, right at 90, handle width
10), pressing the left handle at pointer X 5 and dragging to pointer X 200
stops the left handle exactly at `90 − 10 = 80`. -/
theorem c8_left_handle_clamp_witness :
    ((sampleFooter.mousePress FooterSide.left 5).mouseMove FooterSide.left false 200).leftX
      = sampleFooter.rightX - sampleFooter.handleW :=
  (c8_left_handle_clamp sampleFooter 5 200 (by decide)).2.2 (by decide)

end Statistic

namespace Statistic

/-- C5: a `setXPercentageLimits` call with a pair different from the
current X targets, made while the animation is in flight, changes only the
targets: the current (rendered) X and Y values immediately after the call
equal those immediately before it, the Y interpolated values re-anchor at
the current rendered values (their start values become the old current
values), the new Y targets are the freshly computed final height limits,
and the crossfade value is untouched. -/
theorem c5_retarget_preserves_current (st : ChartAnimationController)
    (d : StatisticalChart) (p : Limits) (now : ℚ)
    (hA : st.animating = true)
    (hT : ¬(st.xMin.toValue = p.min ∧ st.xMax.toValue = p.max)) :
    (st.setXPercentageLimits d p now).currentXLimits = st.currentXLimits
      ∧ (st.setXPercentageLimits d p now).currentHeightLimits
          = st.currentHeightLimits
      ∧ (st.setXPercentageLimits d p now).yMin.fro = st.yMin.cur
      ∧ (st.setXPercentageLimits d p now).yMax.fro = st.yMax.cur
      ∧ (st.setXPercentageLimits d p now).yMin.toValue
          = (st.setXPercentageLimits d p now).finalHeightLimits.min
      ∧ (st.setXPercentageLimits d p now).yMax.toValue
          = (st.setXPercentageLimits d p now).finalHeightLimits.max
      ∧ (st.setXPercentageLimits d p now).yAlpha = st.yAlpha := by
  have hstart : st.start now = st := by
    rw [ChartAnimationController.start, if_pos hA]
  rw [ChartAnimationController.setXPercentageLimits, if_neg hT, hstart]
  exact ⟨rfl, rfl, rfl, rfl, AnimValue.toValue_mk2 _ _,
    AnimValue.toValue_mk2 _ _, rfl⟩

/-- C5 (witness): re-targeting a running controller from targets `(0,0)` to
`(0,1)` over the sample chart leaves the rendered X and Y limits
unchanged. -/
theorem c5_retarget_witness :
    (runningController.setXPercentageLimits sampleChart ⟨0, 1⟩ 7).currentXLimits
        = runningController.currentXLimits
      ∧ (runningController.setXPercentageLimits sampleChart ⟨0, 1⟩ 7).currentHeightLimits
        = runningController.currentHeightLimits := by
  have h := c5_retarget_preserves_current runningController sampleChart ⟨0, 1⟩ 7
    rfl
    (by norm_num [runningController, ChartAnimationController.initial,
      AnimValue.init, AnimValue.toValue])
  exact ⟨h.1, h.2.1⟩

/-- C9: `setChartData` on a fresh widget with a single line of values
`[10,20,5,40,15]` over the full range `[0,1]` instantly (no animation
running) yields X limits equal to the full data range, Y limits exactly
`[5,40]`, and exactly one gridline group, whose alpha is exactly 1. -/
theorem c9_setChartData_scenario :
    (ChartWidgetState.initial.setChartData sampleChart).controller.currentXLimits
        = ⟨0, 1⟩
      ∧ (ChartWidgetState.initial.setChartData sampleChart).controller.currentHeightLimits
        = ⟨5, 40⟩
      ∧ (ChartWidgetState.initial.setChartData sampleChart).horizontalLines.length = 1
      ∧ ((ChartWidgetState.initial.setChartData sampleChart).horizontalLines.map
          (fun g => g.alpha)) = [1]
      ∧ (ChartWidgetState.initial.setChartData sampleChart).controller.animating
        = false := by
  norm_num [ChartWidgetState.setChartData, ChartWidgetState.initial, sampleChart,
    ChartAnimationController.setXPercentageLimits, ChartAnimationController.initial,
    ChartAnimationController.start, ChartAnimationController.finish,
    ChartAnimationController.currentHeightLimits, ChartAnimationController.currentXLimits,
    AnimValue.init, AnimValue.toValue, AnimValue.mk2, AnimValue.start, AnimValue.finish,
    StatisticalChart.findStartIndex, StatisticalChart.findEndIndex,
    FindMinValue, FindMaxValue, StatLine.rMinQ, StatLine.rMaxQ, sliceIncl,
    List.findIdx_cons, dtYSpeedFor, kDtHeightSpeedThreshold1, kDtHeightSpeedThreshold2,
    kDtHeightInstantThreshold, kDtHeightSpeed1, kDtHeightSpeed2, kDtHeightSpeed3,
    addHorizontalLine, setBackAlpha, ChartHorizontalLinesData.construct]

end Statistic

namespace Statistic

/-- C1 (counterexample): the claim asserts that after
`setXPercentageLimits` + `finish()` the Y limits equal the *true* min and
max over the index range.  Over `negChart` (one line `[-5, -3]`, full
range requested, index range `[0,1]`, true min/max `(-5, -3)`) the source's
`FindMaxValue` fold is seeded with `auto maxValue = 0`, so the resulting Y
limits are `(-5, 0)`: the Y maximum is `0`, not the true maximum `-3`. -/
theorem c1_counterexample :
    negChart.findStartIndex 0 = 0
      ∧ negChart.findEndIndex 0 1 = 1
      ∧ allValuesInRange negChart 0 1 = [-5, -3]
      ∧ ((ChartAnimationController.initial.setXPercentageLimits negChart
            ⟨0, 1⟩ 0).finish).currentXLimits = ⟨0, 1⟩
      ∧ ((ChartAnimationController.initial.setXPercentageLimits negChart
            ⟨0, 1⟩ 0).finish).currentHeightLimits = ⟨-5, 0⟩ := by
  refine ⟨by decide, by decide, by decide, ?_, ?_⟩ <;>
    norm_num [ChartAnimationController.setXPercentageLimits,
      ChartAnimationController.initial, ChartAnimationController.start,
      ChartAnimationController.finish, ChartAnimationController.currentHeightLimits,
      ChartAnimationController.currentXLimits, negChart,
      AnimValue.init, AnimValue.toValue, AnimValue.mk2, AnimValue.start,
      AnimValue.finish, StatisticalChart.findStartIndex,
      StatisticalChart.findEndIndex, FindMinValue, FindMaxValue,
      StatLine.rMinQ, StatLine.rMaxQ, sliceIncl, List.findIdx_cons,
      dtYSpeedFor, kDtHeightSpeedThreshold1, kDtHeightSpeedThreshold2,
      kDtHeightInstantThreshold, kDtHeightSpeed1, kDtHeightSpeed2,
      kDtHeightSpeed3]

/-- C1 (amended): for every chart and fractional pair `f1 ≤ f2` *different
from the current X targets* (otherwise the guard makes the call a no-op),
`setXPercentageLimits` followed by `finish()` leaves the current X limits
exactly `(f1, f2)`, the current Y minimum exactly the true minimum over
the corresponding index range, and the current Y maximum `max 0` of the
true maximum (equal to the true maximum whenever the data is
non-negative); the true extrema are assumed to fit a 32-bit int. -/
theorem c1_limits_after_finish (st : ChartAnimationController)
    (d : StatisticalChart) (p : Limits) (now : ℚ) (s e : ℕ) (mn mx : ℤ)
    (hp : p.min ≤ p.max)
    (hguard : ¬(st.xMin.toValue = p.min ∧ st.xMax.toValue = p.max))
    (hs : s = d.findStartIndex p.min)
    (he : e = d.findEndIndex s p.max)
    (hmnmem : mn ∈ allValuesInRange d s e)
    (hmnub : ∀ v ∈ allValuesInRange d s e, mn ≤ v)
    (hmnb : mn ≤ 2147483647)
    (hmxmem : mx ∈ allValuesInRange d s e)
    (hmxub : ∀ v ∈ allValuesInRange d s e, v ≤ mx)
    (hmxb : -2147483648 ≤ mx) :
    ((st.setXPercentageLimits d p now).finish).currentXLimits = ⟨p.min, p.max⟩
      ∧ ((st.setXPercentageLimits d p now).finish).currentHeightLimits
          = ⟨(mn : ℚ), ((max 0 mx : ℤ) : ℚ)⟩ := by
  subst hs
  subst he
  have hFmin := FindMinValue_spec d (d.findStartIndex p.min)
    (d.findEndIndex (d.findStartIndex p.min) p.max) mn hmnmem hmnub hmnb
  have hFmax := FindMaxValue_spec d (d.findStartIndex p.min)
    (d.findEndIndex (d.findStartIndex p.min) p.max) mx hmxmem hmxub hmxb
  rw [ChartAnimationController.setXPercentageLimits, if_neg hguard]
  simp only [ChartAnimationController.finish, ChartAnimationController.currentXLimits,
    ChartAnimationController.currentHeightLimits, AnimValue.toValue_start,
    AnimValue.finish_cur_of_start, AnimValue.finish_cur_of_mk2, Limits.mk.injEq]
  rw [hFmin, hFmax]
  simp

/-- C1 (witness): over `sampleChart` with pair `(1/4, 3/4)` the index
range is `[1,3]`, the values there are `[20,5,40]`, and after the call and
`finish()` the X limits are `(1/4, 3/4)` and the Y limits `(5, 40)`. -/
theorem c1_limits_after_finish_witness :
    ((ChartAnimationController.initial.setXPercentageLimits sampleChart
        ⟨1/4, 3/4⟩ 0).finish).currentXLimits = ⟨1/4, 3/4⟩
      ∧ ((ChartAnimationController.initial.setXPercentageLimits sampleChart
          ⟨1/4, 3/4⟩ 0).finish).currentHeightLimits = ⟨5, 40⟩ := by
  have h := c1_limits_after_finish ChartAnimationController.initial sampleChart
    ⟨1/4, 3/4⟩ 0 1 3 5 40
    (by norm_num)
    (by norm_num [ChartAnimationController.initial, AnimValue.init,
      AnimValue.toValue])
    (by norm_num [StatisticalChart.findStartIndex, sampleChart,
      List.findIdx_cons])
    (by norm_num [StatisticalChart.findEndIndex, sampleChart,
      List.findIdx_cons])
    (by decide) (by decide) (by decide) (by decide) (by decide) (by decide)
  refine ⟨h.1, ?_⟩
  have h2 := h.2
  norm_num at h2
  exact h2

end Statistic

namespace Statistic

theorem handleX_throttled (w : ChartWidgetState) (p : Limits) (now : ℚ)
    (h : now - w.lastHeightLimitsChanged < kHeightLimitsUpdateTimeout) :
    w.handleXPercentageLimitsChange p now
      = { w with
          controller := w.controller.setXPercentageLimits w.chartData p now } := by
  rw [ChartWidgetState.handleXPercentageLimitsChange, if_pos h]

theorem handleX_spawn (w : ChartWidgetState) (p : Limits) (now : ℚ)
    (h : ¬(now - w.lastHeightLimitsChanged < kHeightLimitsUpdateTimeout)) :
    w.handleXPercentageLimitsChange p now
      = { w with
          controller := (w.controller.setXPercentageLimits w.chartData p now).resetAlpha
          lastHeightLimitsChanged := now
          horizontalLines := addHorizontalLine w.horizontalLines
            ((w.controller.setXPercentageLimits w.chartData p now).resetAlpha).finalHeightLimits
            true } := by
  rw [ChartWidgetState.handleXPercentageLimitsChange, if_neg h]

/-- C7: two footer X-limit change events less than the 320ms cooldown
apart create at most one new gridline group through the range-change
pathway; the second event still leaves the animation X targets at its
pair, and whenever the first event did spawn a group the second is
throttled: it neither touches the group list nor resets the crossfade. -/
theorem c7_throttled_group_creation (w : ChartWidgetState) (p1 p2 : Limits)
    (t1 t2 : ℚ) (h12 : t1 ≤ t2)
    (hlt : t2 - t1 < kHeightLimitsUpdateTimeout) :
    ((w.handleXPercentageLimitsChange p1 t1).handleXPercentageLimitsChange p2 t2).horizontalLines.length
        ≤ w.horizontalLines.length + 1
      ∧ ((w.handleXPercentageLimitsChange p1 t1).handleXPercentageLimitsChange p2 t2).controller.xMin.toValue
          = p2.min
      ∧ ((w.handleXPercentageLimitsChange p1 t1).handleXPercentageLimitsChange p2 t2).controller.xMax.toValue
          = p2.max
      ∧ (kHeightLimitsUpdateTimeout ≤ t1 - w.lastHeightLimitsChanged →
          ((w.handleXPercentageLimitsChange p1 t1).handleXPercentageLimitsChange p2 t2).horizontalLines
              = (w.handleXPercentageLimitsChange p1 t1).horizontalLines
            ∧ ((w.handleXPercentageLimitsChange p1 t1).handleXPercentageLimitsChange p2 t2).controller.yAlpha
              = (w.handleXPercentageLimitsChange p1 t1).controller.yAlpha
            ∧ ((w.handleXPercentageLimitsChange p1 t1).handleXPercentageLimitsChange p2 t2).controller.alphaAnimationStartedAt
              = (w.handleXPercentageLimitsChange p1 t1).controller.alphaAnimationStartedAt) := by
  by_cases hc1 : t1 - w.lastHeightLimitsChanged < kHeightLimitsUpdateTimeout
  · have hw1 := handleX_throttled w p1 t1 hc1
    have hlast1 : (w.handleXPercentageLimitsChange p1 t1).lastHeightLimitsChanged
        = w.lastHeightLimitsChanged := by rw [hw1]
    have hlines1 : (w.handleXPercentageLimitsChange p1 t1).horizontalLines
        = w.horizontalLines := by rw [hw1]
    by_cases hc2 : t2 - w.lastHeightLimitsChanged < kHeightLimitsUpdateTimeout
    · have hw2 := handleX_throttled (w.handleXPercentageLimitsChange p1 t1) p2 t2
        (by rw [hlast1]; exact hc2)
      refine ⟨?_, ?_, ?_, ?_⟩
      · simp [hw2, hlines1, Nat.le_succ]
      · simp only [hw2]
        exact (ChartAnimationController.setXPercentageLimits_targets _ _ _ _).1
      · simp only [hw2]
        exact (ChartAnimationController.setXPercentageLimits_targets _ _ _ _).2
      · intro hge
        exact absurd hc1 (not_lt.mpr hge)
    · have hw2 := handleX_spawn (w.handleXPercentageLimitsChange p1 t1) p2 t2
        (by rw [hlast1]; exact hc2)
      refine ⟨?_, ?_, ?_, ?_⟩
      · simp [hw2, addHorizontalLine_true_length, hlines1]
      · simp only [hw2]
        exact (ChartAnimationController.setXPercentageLimits_targets _ _ _ _).1
      · simp only [hw2]
        exact (ChartAnimationController.setXPercentageLimits_targets _ _ _ _).2
      · intro hge
        exact absurd hc1 (not_lt.mpr hge)
  · have hw1 := handleX_spawn w p1 t1 hc1
    have hlast1 : (w.handleXPercentageLimitsChange p1 t1).lastHeightLimitsChanged
        = t1 := by rw [hw1]
    have hlines1 : (w.handleXPercentageLimitsChange p1 t1).horizontalLines.length
        = w.horizontalLines.length + 1 := by
      rw [hw1]
      simp [addHorizontalLine_true_length]
    have hw2 := handleX_throttled (w.handleXPercentageLimitsChange p1 t1) p2 t2
      (by rw [hlast1]; exact hlt)
    refine ⟨?_, ?_, ?_, fun _ => ⟨?_, ?_, ?_⟩⟩
    · simp [hw2, hlines1]
    · simp only [hw2]
      exact (ChartAnimationController.setXPercentageLimits_targets _ _ _ _).1
    · simp only [hw2]
      exact (ChartAnimationController.setXPercentageLimits_targets _ _ _ _).2
    · simp [hw2]
    · simp only [hw2]
      exact (ChartAnimationController.setXPercentageLimits_yAlpha _ _ _ _).1
    · simp only [hw2]
      exact (ChartAnimationController.setXPercentageLimits_yAlpha _ _ _ _).2

/-- C7 (witness): a fresh widget, one event at t=400 (spawns a group) and
one at t=500 (within 320ms of the first): at most one group is created. -/
theorem c7_throttled_group_creation_witness :
    ((ChartWidgetState.initial.handleXPercentageLimitsChange ⟨0, 1⟩
        400).handleXPercentageLimitsChange ⟨0, 1/2⟩ 500).horizontalLines.length
      ≤ ChartWidgetState.initial.horizontalLines.length + 1 :=
  (c7_throttled_group_creation ChartWidgetState.initial ⟨0, 1⟩ ⟨0, 1/2⟩ 400 500
    (by norm_num) (by norm_num [kHeightLimitsUpdateTimeout])).1

end Statistic

namespace Statistic

theorem setBackAlpha_append (v : ℚ) :
    ∀ (zs : List ChartHorizontalLinesData) (w : ChartHorizontalLinesData),
      setBackAlpha v (zs ++ [w]) = zs ++ [{ w with alpha := v }]
  | [], w => rfl
  | z :: zs, w => by
    cases zs with
    | nil => rfl
    | cons z' zs' =>
      show z :: setBackAlpha v ((z' :: zs') ++ [w])
          = z :: ((z' :: zs') ++ [{ w with alpha := v }])
      rw [setBackAlpha_append v (z' :: zs') w]

theorem retireFront_zeros :
    ∀ (zs : List ChartHorizontalLinesData) (w : ChartHorizontalLinesData),
      (∀ z ∈ zs, z.alpha = 0) → retireFrontZeroAlpha (zs ++ [w]) = [w]
  | [], _, _ => rfl
  | z :: zs, w, h => by
    have hz : z.alpha = 0 := h z (List.mem_cons_self z zs)
    have ih := retireFront_zeros zs w (fun x hx => h x (List.mem_cons_of_mem z hx))
    cases zs with
    | nil =>
      show (if z.alpha = 0 then retireFrontZeroAlpha [w] else [z, w]) = [w]
      rw [if_pos hz]
      rfl
    | cons z' zs' =>
      show (if z.alpha = 0 then retireFrontZeroAlpha ((z' :: zs') ++ [w])
          else z :: (z' :: zs') ++ [w]) = [w]
      rw [if_pos hz]
      exact ih

theorem computeRelative_absoluteValues (d : ChartHorizontalLinesData)
    (a b : ℚ) :
    (d.computeRelative a b).lines.map (fun l => l.absoluteValue)
      = d.lines.map (fun l => l.absoluteValue) := by
  unfold ChartHorizontalLinesData.computeRelative
  rw [List.map_map]
  rfl

theorem tickAlphaStage_one (zs : List ChartHorizontalLinesData)
    (w : ChartHorizontalLinesData) :
    ChartAnimationController.tickAlphaStage 1 (zs ++ [w]) = some [{ w with alpha := 1 }] := by
  have hzero : ∀ z ∈ zs.map
      (fun h => { h with alpha := h.fixedAlpha * (1 - (1 : ℚ)) }), z.alpha = 0 := by
    intro z hz
    obtain ⟨x, -, rfl⟩ := List.mem_map.mp hz
    show x.fixedAlpha * (1 - (1 : ℚ)) = 0
    ring
  rw [ChartAnimationController.tickAlphaStage]
  simp only [List.map_append, List.map_cons, List.map_nil, List.getLast?_concat]
  rw [setBackAlpha_append]
  rw [if_pos trivial]
  rw [retireFront_zeros _ _ hzero]

theorem tickAlphaStage_nil (v : ℚ) : ChartAnimationController.tickAlphaStage v [] = none := rfl

theorem tickIdleCheck_nil (st : ChartAnimationController) :
    ChartAnimationController.tickIdleCheck st [] = none := rfl

theorem tickIdleCheck_isSome (st : ChartAnimationController)
    (hl : List ChartHorizontalLinesData) (hne : hl ≠ [])
    (hw : ∀ g ∈ hl, g.lines ≠ []) : (ChartAnimationController.tickIdleCheck st hl).isSome := by
  rw [ChartAnimationController.tickIdleCheck]
  split
  · next heq => exact absurd (List.getLast?_eq_none_iff.mp heq) hne
  · next back heq =>
    have hback : back ∈ hl := by
      obtain ⟨h', rfl⟩ := List.mem_getLast?_eq_getLast heq
      exact List.getLast_mem h'
    have hlines := hw back hback
    split
    · rfl
    · next harm =>
      obtain ⟨x, xs, hbl⟩ : ∃ x xs, back.lines = x :: xs := by
        cases hbl2 : back.lines with
        | nil => exact absurd hbl2 hlines
        | cons x xs => exact ⟨x, xs, rfl⟩
      have hh : back.lines.head? = some x := by rw [hbl]; rfl
      have hg : back.lines.getLast? = some (back.lines.getLast hlines) :=
        List.getLast?_eq_getLast back.lines hlines
      exact (harm x (back.lines.getLast hlines) hh hg).elim

theorem tickAlphaStage_isSome (v : ℚ) (hl : List ChartHorizontalLinesData)
    (hne : hl ≠ []) : (ChartAnimationController.tickAlphaStage v hl).isSome := by
  rw [ChartAnimationController.tickAlphaStage]
  cases hgl : (hl.map
      (fun h => { h with alpha := h.fixedAlpha * (1 - v) })).getLast? with
  | none =>
    have : hl.map (fun h => { h with alpha := h.fixedAlpha * (1 - v) }) = [] :=
      List.getLast?_eq_none_iff.mp hgl
    exact absurd (List.map_eq_nil_iff.mp this) hne
  | some x =>
    rfl

end Statistic

namespace Statistic

theorem tick_alpha_reaches_one (st : ChartAnimationController) (now : ℚ)
    (zs : List ChartHorizontalLinesData) (w : ChartHorizontalLinesData)
    (hAnim : st.animating = true)
    (hY : st.yAnimationStartedAt ≠ 0)
    (hA : st.alphaAnimationStartedAt ≠ 0)
    (hNow : kAlphaExpandingDuration ≤ now - st.alphaAnimationStartedAt)
    (hTo : st.yAlpha.toValue = 1)
    (hCur : st.yAlpha.cur ≠ 1) :
    ∃ c fired g, st.tick now (zs ++ [w]) = some ⟨c, [g], fired⟩
      ∧ g.alpha = 1
      ∧ g.lines.map (fun l => l.absoluteValue)
          = w.lines.map (fun l => l.absoluteValue) := by
  have h1 : ¬(st.yAnimationStartedAt = 0
      ∧ now - st.lastUserInteracted ≥ kExpandingDelay) := fun h => hY h.1
  have hTo' : st.yAlpha.fro + st.yAlpha.delta = 1 := by
    simpa [AnimValue.toValue] using hTo
  have hdt : min ((now - st.alphaAnimationStartedAt) / kAlphaExpandingDuration) 1
      = 1 :=
    min_eq_right ((le_div_iff (by norm_num [kAlphaExpandingDuration])).mpr
      (by rw [one_mul]; exact hNow))
  have hval : st.yAlpha.fro + st.yAlpha.delta * easeInCubic 1 = 1 := by
    norm_num [easeInCubic]
    linarith [hTo']
  by_cases hxf : st.xMin.cur = st.xMin.toValue ∧ st.xMax.cur = st.xMax.toValue
  · generalize hgen : st.tick now (zs ++ [w]) = r
    simp [ChartAnimationController.tick, hAnim, h1, hA, hTo, hCur, hY, hdt,
      hval, AnimValue.update, hxf, List.map_append, tickAlphaStage_one] at hgen
    subst hgen
    exact ⟨_, _, _, rfl, rfl, computeRelative_absoluteValues w _ _⟩
  · generalize hgen : st.tick now (zs ++ [w]) = r
    simp [ChartAnimationController.tick, hAnim, h1, hA, hTo, hCur, hY, hdt,
      hval, AnimValue.update, hxf, List.map_append, tickAlphaStage_one] at hgen
    subst hgen
    exact ⟨_, _, _, rfl, rfl, computeRelative_absoluteValues w _ _⟩

end Statistic

namespace Statistic

/-- C2: on a tick in which the crossfade alpha value reaches exactly 1
(the alpha sub-animation has run its full 200ms with target 1 and the
value was not already 1), the zero-alpha groups are removed from the front
of the gridline-group list and the newest (last) group is never removed:
the resulting list is exactly the (recomputed) newest group with alpha 1 —
in particular it is non-empty and its front-to-back alphas are
non-decreasing. -/
theorem c2_gridline_retirement (st : ChartAnimationController) (now : ℚ)
    (hl : List ChartHorizontalLinesData) (hne : hl ≠ [])
    (hAnim : st.animating = true)
    (hY : st.yAnimationStartedAt ≠ 0)
    (hA : st.alphaAnimationStartedAt ≠ 0)
    (hNow : kAlphaExpandingDuration ≤ now - st.alphaAnimationStartedAt)
    (hTo : st.yAlpha.toValue = 1)
    (hCur : st.yAlpha.cur ≠ 1) :
    ∃ c fired g, st.tick now hl = some ⟨c, [g], fired⟩
      ∧ g.alpha = 1
      ∧ g.lines.map (fun l => l.absoluteValue)
          = (hl.getLast hne).lines.map (fun l => l.absoluteValue) := by
  have h := tick_alpha_reaches_one st now hl.dropLast (hl.getLast hne)
    hAnim hY hA hNow hTo hCur
  rwa [List.dropLast_append_getLast hne] at h

/-- C2 (witness): on a controller mid-crossfade at time 300 with two
groups, the tick retires the old group and keeps exactly the newest one at
alpha 1. -/
theorem c2_gridline_retirement_witness :
    ∃ c fired g, tickController.tick 300 [sampleGroupA, sampleGroupB]
        = some ⟨c, [g], fired⟩ ∧ g.alpha = 1 := by
  obtain ⟨c, fired, g, heq, halpha, -⟩ :=
    c2_gridline_retirement tickController 300 [sampleGroupA, sampleGroupB]
      (by simp)
      rfl
      (by norm_num [tickController, ChartAnimationController.initial])
      (by norm_num [tickController, ChartAnimationController.initial])
      (by norm_num [tickController, ChartAnimationController.initial,
        kAlphaExpandingDuration])
      (by norm_num [tickController, ChartAnimationController.initial,
        AnimValue.toValue])
      (by norm_num [tickController, ChartAnimationController.initial])
  exact ⟨c, fired, g, heq, halpha⟩

end Statistic

namespace Statistic

theorem optionBind_isSome {α β : Type} (o : Option α) (f : α → Option β)
    (ho : o.isSome) (hf : ∀ a, (f a).isSome) : (o.bind f).isSome := by
  cases o with
  | none => exact absurd ho (by simp)
  | some a => exact hf a

theorem ite_option_isSome {α : Type} (C : Prop) [Decidable C]
    (o1 o2 : Option α) (h1 : o1.isSome) (h2 : o2.isSome) :
    (if C then o1 else o2).isSome := by
  split
  · exact h1
  · exact h2

theorem ite_ne_nil {α : Type} (C : Prop) [Decidable C] (l1 l2 : List α)
    (h1 : l1 ≠ []) (h2 : l2 ≠ []) : (if C then l1 else l2) ≠ [] := by
  split
  · exact h1
  · exact h2

/-- C10: `tick` is total only when the gridline-group list is non-empty
(with non-empty gridline sequences) while the animation is active.  On an
active tick with monotone time the source writes
`horizontalLines.back().alpha` (and, when all three sub-animations are
finished, reads `back().lines.front()/back()`) without emptiness checks:
on the empty list the modelled tick is `none` (undefined behaviour), while
under the precondition it always produces a result. -/
theorem c10_tick_totality (st : ChartAnimationController) (now : ℚ)
    (hAnim : st.animating = true)
    (hT : st.alphaAnimationStartedAt = 0 ∨ st.alphaAnimationStartedAt ≤ now) :
    st.tick now [] = none
      ∧ ∀ hl, hl ≠ [] → (∀ g ∈ hl, g.lines ≠ []) →
          (st.tick now hl).isSome := by
  constructor
  · by_cases hc1 : st.yAnimationStartedAt = 0
        ∧ now - st.lastUserInteracted ≥ kExpandingDelay
    · by_cases hc2 : st.alphaAnimationStartedAt = 0
      · have hm01 : min (0 : ℚ) 1 = 0 := min_eq_left zero_le_one
        by_cases hfin : (st.xMin.cur = st.xMin.toValue
              ∧ st.xMax.cur = st.xMax.toValue)
            ∧ (st.yMin.cur = st.yMin.toValue ∧ st.yMax.cur = st.yMax.toValue)
            ∧ st.yAlpha.cur = st.yAlpha.toValue <;>
          simp [ChartAnimationController.tick, hAnim, hc1, hc2, hfin,
            tickIdleCheck_nil, tickAlphaStage_nil, hm01]
      · have hle : st.alphaAnimationStartedAt ≤ now := hT.resolve_left hc2
        have h0 : (0 : ℚ)
            ≤ (now - st.alphaAnimationStartedAt) / kAlphaExpandingDuration :=
          div_nonneg (by linarith) (by norm_num [kAlphaExpandingDuration])
        have hmin : (0 : ℚ) ≤ min
            ((now - st.alphaAnimationStartedAt) / kAlphaExpandingDuration) 1 :=
          le_min h0 zero_le_one
        by_cases hfin : (st.xMin.cur = st.xMin.toValue
              ∧ st.xMax.cur = st.xMax.toValue)
            ∧ (st.yMin.cur = st.yMin.toValue ∧ st.yMax.cur = st.yMax.toValue)
            ∧ st.yAlpha.cur = st.yAlpha.toValue <;>
          simp [ChartAnimationController.tick, hAnim, hc1, hc2, hfin,
            tickIdleCheck_nil, tickAlphaStage_nil, hmin, min_le_right]
    · by_cases hc2 : st.alphaAnimationStartedAt = 0
      · have hm01 : min (0 : ℚ) 1 = 0 := min_eq_left zero_le_one
        by_cases hfin : (st.xMin.cur = st.xMin.toValue
              ∧ st.xMax.cur = st.xMax.toValue)
            ∧ (st.yMin.cur = st.yMin.toValue ∧ st.yMax.cur = st.yMax.toValue)
            ∧ st.yAlpha.cur = st.yAlpha.toValue <;>
          simp [ChartAnimationController.tick, hAnim, hc1, hc2, hfin,
            tickIdleCheck_nil, tickAlphaStage_nil, hm01]
      · have hle : st.alphaAnimationStartedAt ≤ now := hT.resolve_left hc2
        have h0 : (0 : ℚ)
            ≤ (now - st.alphaAnimationStartedAt) / kAlphaExpandingDuration :=
          div_nonneg (by linarith) (by norm_num [kAlphaExpandingDuration])
        have hmin : (0 : ℚ) ≤ min
            ((now - st.alphaAnimationStartedAt) / kAlphaExpandingDuration) 1 :=
          le_min h0 zero_le_one
        by_cases hfin : (st.xMin.cur = st.xMin.toValue
              ∧ st.xMax.cur = st.xMax.toValue)
            ∧ (st.yMin.cur = st.yMin.toValue ∧ st.yMax.cur = st.yMax.toValue)
            ∧ st.yAlpha.cur = st.yAlpha.toValue <;>
          simp [ChartAnimationController.tick, hAnim, hc1, hc2, hfin,
            tickIdleCheck_nil, tickAlphaStage_nil, hmin, min_le_right]
  · intro hl hne hw
    rw [ChartAnimationController.tick]
    simp only [hAnim, Bool.not_true, Bool.false_eq_true, if_false]
    apply optionBind_isSome
    · apply ite_option_isSome
      · exact tickIdleCheck_isSome _ hl hne hw
      · rfl
    · intro st4
      apply optionBind_isSome
      · apply ite_option_isSome
        · exact tickAlphaStage_isSome _ _
            (ite_ne_nil _ _ _ (by simpa using hne) hne)
        · rfl
      · intro hl2
        rfl

end Statistic

namespace Statistic

/-- C10 (witness): on a running controller at time 300, the tick on the
empty group list hits undefined behaviour (`none`), while on a singleton
list with non-empty gridlines it completes. -/
theorem c10_tick_totality_witness :
    tickController.tick 300 [] = none
      ∧ (tickController.tick 300 [sampleGroupB]).isSome := by
  have h := c10_tick_totality tickController 300 rfl
    (Or.inr (by norm_num [tickController, ChartAnimationController.initial]))
  refine ⟨h.1, h.2 [sampleGroupB] (by simp) ?_⟩
  intro g hg
  rw [List.mem_singleton] at hg
  subst hg
  simp [sampleGroupB]

end Statistic
